import Mathlib

/-!
Verification of the `RequiredLabel` directive
(src/projects/form-things/src/lib/directives/required-label.ts).

The directive decorates the label(s) associated with a form control:
whenever the control carries a required validator it appends a
`<span class="required-indicator" aria-hidden="true"> *</span>` to each
associated label and sets `aria-required="true"` on the host; otherwise it
removes the attribute and detaches the span.

Shallow embedding conventions:
* JavaScript values that flow through validator results are modelled by
  `JSVal` together with JS truthiness.
* The optional chain `this.ngControl?.control?.validator` is modelled by
  `Option NgControl`, `NgControl.control : Option FtControl`,
  `FtControl.validator : Option ValidatorFn`.
* The DOM relevant to the directive: the host's `aria-required` attribute,
  and for every label element (indexed by `Nat`) the list of indicator-node
  ids currently among its children (labels' other children are irrelevant
  to the directive and omitted).  `appendChild` moves a node: a DOM node
  has at most one parent, so appending detaches it from wherever it was.
* `findAssociatedLabels` queries the live document on every pass; the label
  list a pass observes is therefore an input of that pass.
* Indicator nodes created by the renderer are recorded in `nodes`
  (id ↦ element shape) and `console.warn` calls are counted in `warns`.
-/

namespace FormThings

/-- JavaScript runtime values as far as validator results need them. -/
inductive JSVal where
  | vNull
  | vUndefined
  | vBool (b : Bool)
  | vNum (n : Int)
  | vStr (s : String)
  | vObj
deriving DecidableEq, Repr

/-- JS truthiness: `null`, `undefined`, `false`, `0` and `""` are falsy. -/
def JSVal.truthy : JSVal → Bool
  | .vNull => false
  | .vUndefined => false
  | .vBool b => b
  | .vNum n => decide (n ≠ 0)
  | .vStr s => decide (s ≠ "")
  | .vObj => true

/-- A `ValidationErrors` object: an error-key to detail mapping. -/
abbrev ValidationErrors := List (String × JSVal)

/-- A validator function: invoked on the synthetic empty control
(`{} as AbstractControl`, always the same placeholder, hence `Unit`) and
returning an errors object or `null`. -/
abbrev ValidatorFn := Unit → Option ValidationErrors

/-- The bound form control: only its (possibly null) validator matters. -/
structure FtControl where
  validator : Option ValidatorFn

/-- `NgControl` as injected with `{ optional: true, self: true }`:
its `control` getter may itself be null. -/
structure NgControl where
  control : Option FtControl

/-- Translation of `RequiredLabel.hasRequiredValidator`:
`if (!this.ngControl?.control?.validator) return false;`
`const validator = this.ngControl.control.validator({} as AbstractControl);`
`return !!(validator && (validator as Record<string, any>)['required']);` -/
def RequiredLabel.hasRequiredValidator (ngControl : Option NgControl) : Bool :=
  match ngControl with
  | none => false
  | some g =>
    match g.control with
    | none => false
    | some c =>
      match c.validator with
      | none => false
      | some f =>
        match f () with
        | none => false
        | some errs => (((errs.lookup "required").getD JSVal.vUndefined)).truthy

/-- How many times `hasRequiredValidator` invokes the bound validator
function: exactly once when the optional chain yields one, never otherwise
(the guard returns `false` before any call). -/
def RequiredLabel.validatorCalls (ngControl : Option NgControl) : Nat :=
  match ngControl with
  | none => 0
  | some g =>
    match g.control with
    | none => 0
    | some c =>
      match c.validator with
      | none => 0
      | some _ => 1

/-- The spec sentence taken literally: the validation result
"contains a `required` key" (regardless of the value it maps to). -/
def containsRequiredKey (r : Option ValidationErrors) : Bool :=
  match r with
  | none => false
  | some errs => (errs.lookup "required").isSome

/-- Modelled from the amended spec wording: evaluate the bound validator
against the synthetic empty input when the whole chain is present, and be
true exactly when the result is a non-null object mapping `required` to a
JS-truthy value. -/
def specRequiredTruthy (ngControl : Option NgControl) : Bool :=
  match (ngControl.bind NgControl.control).bind FtControl.validator with
  | none => false
  | some f =>
    match f () with
    | none => false
    | some errs =>
      match errs.lookup "required" with
      | none => false
      | some v => v.truthy

/-- Shape of an element built through `Renderer2` calls: tag, attributes,
CSS classes and appended text children. -/
structure SpanEl where
  tag : String
  attrs : List (String × String)
  classes : List String
  textChildren : List String
deriving DecidableEq, Repr

/-- `Renderer2.createElement`. -/
def createElement (t : String) : SpanEl := ⟨t, [], [], []⟩

/-- `Renderer2.setAttribute` on a detached element. -/
def setAttributeEl (e : SpanEl) (k v : String) : SpanEl :=
  { e with attrs := e.attrs.filter (fun p => p.1 ≠ k) ++ [(k, v)] }

/-- `Renderer2.addClass`. -/
def addClassEl (e : SpanEl) (c : String) : SpanEl :=
  { e with classes := e.classes ++ [c] }

/-- `Renderer2.appendChild` of a text node created by `createText`. -/
def appendTextEl (e : SpanEl) (t : String) : SpanEl :=
  { e with textChildren := e.textChildren ++ [t] }

/-- The indicator element the directive builds:
`<span class="required-indicator" aria-hidden="true"> *</span>`. -/
def indicatorEl : SpanEl :=
  appendTextEl
    (addClassEl (setAttributeEl (createElement "span") "aria-hidden" "true")
      "required-indicator")
    " *"

/-- Directive-relevant mutable state: the host's `aria-required` attribute,
every label element's indicator children (`labels l` lists the indicator
node ids currently inside label `l`), the log of created indicator nodes,
the count of `console.warn` diagnostics, the `asteriskSpan` field, a fresh
node-id supply, and whether the `statusChanges` subscription is active. -/
structure RLState where
  aria : Option String
  labels : Nat → List Nat
  nodes : List (Nat × SpanEl)
  warns : Nat
  asteriskSpan : Option Nat
  nextId : Nat
  subscribed : Bool

/-- DOM `appendChild label[l] node[s]`: a node has a single parent, so the
node is first detached from every label that holds it, then appended to
label `l`. -/
def appendChildAt (ls : Nat → List Nat) (l s : Nat) : Nat → List Nat :=
  fun m =>
    if m = l then (ls l).filter (fun t => t ≠ s) ++ [s]
    else (ls m).filter (fun t => t ≠ s)

/-- DOM `removeChild label[l] node[s]`. -/
def removeChildAt (ls : Nat → List Nat) (l s : Nat) : Nat → List Nat :=
  fun m => if m = l then (ls l).filter (fun t => t ≠ s) else ls m

/-- One iteration of the attaching `forEach`:
`if (!label.contains(this.asteriskSpan)) renderer.appendChild(label, span)`. -/
def attachStep (s : Nat) (ls : Nat → List Nat) (l : Nat) : Nat → List Nat :=
  if s ∈ ls l then ls else appendChildAt ls l s

/-- The attaching `forEach` over the associated labels. -/
def attachLoop (assoc : List Nat) (s : Nat) (ls : Nat → List Nat) : Nat → List Nat :=
  assoc.foldl (attachStep s) ls

/-- One iteration of the detaching `forEach`:
`if (label.contains(this.asteriskSpan)) renderer.removeChild(label, span)`. -/
def detachStep (s : Nat) (ls : Nat → List Nat) (l : Nat) : Nat → List Nat :=
  if s ∈ ls l then removeChildAt ls l s else ls

/-- The detaching `forEach` over the associated labels. -/
def detachLoop (assoc : List Nat) (s : Nat) (ls : Nat → List Nat) : Nat → List Nat :=
  assoc.foldl (detachStep s) ls

/-- Translation of `RequiredLabel.updateLabel`.  `associatedLabels` is the
list `findAssociatedLabels` returns on this pass (queried fresh from the
live document, hence an input).  The code computes `isRequired` first; if
no label was found *and* `isDevMode()` it warns and returns before any
mutation; otherwise it takes the required or not-required branch. -/
def RequiredLabel.updateLabel (isDevMode : Bool) (ngControl : Option NgControl)
    (associatedLabels : List Nat) (st : RLState) : RLState :=
  let isRequired := RequiredLabel.hasRequiredValidator ngControl
  if associatedLabels.length = 0 ∧ isDevMode = true then
    { st with warns := st.warns + 1 }
  else if isRequired then
    let st1 := { st with aria := some "true" }
    match st1.asteriskSpan with
    | some s => { st1 with labels := attachLoop associatedLabels s st1.labels }
    | none =>
      let s := st1.nextId
      let st2 := { st1 with
        nodes := st1.nodes ++ [(s, indicatorEl)],
        asteriskSpan := some s,
        nextId := s + 1 }
      { st2 with labels := attachLoop associatedLabels s st2.labels }
  else
    let st1 := { st with aria := none }
    match st1.asteriskSpan with
    | none => st1
    | some s =>
      let st2 := { st1 with labels := detachLoop associatedLabels s st1.labels }
      { st2 with asteriskSpan := none }

/-- Translation of `RequiredLabel.ngOnInit`: without a bound control the
directive returns before subscribing; with one it subscribes to
`statusChanges.pipe(startWith(status))`, whose `startWith` makes the
handler fire immediately once (`assoc0` is the label list that first pass
observes). -/
def RequiredLabel.ngOnInit (isDevMode : Bool) (ngControl : Option NgControl)
    (assoc0 : List Nat) (st : RLState) : RLState :=
  match ngControl with
  | none => st
  | some g =>
    match g.control with
    | none => st
    | some _ =>
      RequiredLabel.updateLabel isDevMode ngControl assoc0 { st with subscribed := true }

/-- A `statusChanges` emission: the subscribed handler runs `updateLabel`
with the control and label set current at emission time; with no active
subscription nothing runs. -/
def RequiredLabel.onStatusEmission (isDevMode : Bool) (ngControl : Option NgControl)
    (assoc : List Nat) (st : RLState) : RLState :=
  if st.subscribed then RequiredLabel.updateLabel isDevMode ngControl assoc st else st

/-- Translation of `RequiredLabel.ngOnDestroy`: `this.status$?.unsubscribe()`. -/
def RequiredLabel.ngOnDestroy (st : RLState) : RLState :=
  { st with subscribed := false }

/-- A sequence of emissions, each carrying the control snapshot and the
associated labels observed on that pass. -/
def runEmissions (isDevMode : Bool) (inputs : List (Option NgControl × List Nat))
    (st : RLState) : RLState :=
  inputs.foldl (fun acc p => RequiredLabel.onStatusEmission isDevMode p.1 p.2 acc) st

/-- Freshly constructed directive on a page whose labels hold no indicator
yet; the host may carry an arbitrary pre-existing `aria-required` value. -/
def initialState (aria0 : Option String) : RLState :=
  { aria := aria0, labels := fun _ => [], nodes := [], warns := 0,
    asteriskSpan := none, nextId := 0, subscribed := false }

/-- State right after a successful `ngOnInit` subscription but before any
pass has run (used to quantify over emission sequences uniformly). -/
def subscribedState (aria0 : Option String) : RLState :=
  { initialState aria0 with subscribed := true }

/-- Last element of the associated-label list (the `forEach` iteration
order), defaulting to `0` on the empty list. -/
def lastOf : List Nat → Nat
  | [] => 0
  | [l] => l
  | _ :: l :: rest => lastOf (l :: rest)

/-- A validator behaving like `Validators.required` on an empty control:
it reports `{ required: true }`. -/
def requiredTrueValidator : ValidatorFn := fun _ => some [("required", JSVal.vBool true)]

/-- A validator whose result contains the `required` key mapped to a falsy
value. -/
def requiredFalsyValidator : ValidatorFn := fun _ => some [("required", JSVal.vBool false)]

/-- A validator reporting no errors (`null`). -/
def cleanValidator : ValidatorFn := fun _ => none

/-- Host bound to a control with a required validator. -/
def ngRequired : Option NgControl := some ⟨some ⟨some requiredTrueValidator⟩⟩

/-- Host bound to a control whose validator maps `required` to `false`. -/
def ngFalsyRequired : Option NgControl := some ⟨some ⟨some requiredFalsyValidator⟩⟩

/-- Host bound to a control with no validator at all. -/
def ngNoValidator : Option NgControl := some ⟨some ⟨none⟩⟩

/-- Host bound to a control that currently reports no errors. -/
def ngClean : Option NgControl := some ⟨some ⟨some cleanValidator⟩⟩

/-! ### Generic fold lemmas -/

theorem foldl_preserve {α β : Type} (P : α → Prop) (f : α → β → α)
    (hstep : ∀ a b, P a → P (f a b)) :
    ∀ (xs : List β) (a : α), P a → P (xs.foldl f a)
  | [], _, ha => ha
  | x :: rest, a, ha => foldl_preserve P f hstep rest (f a x) (hstep a x ha)

theorem foldl_preserve_mem {α β : Type} (P : α → Prop) (f : α → β → α) :
    ∀ (xs : List β) (a : α), (∀ a b, b ∈ xs → P a → P (f a b)) → P a → P (xs.foldl f a)
  | [], _, _, ha => ha
  | x :: rest, a, hstep, ha =>
    foldl_preserve_mem P f rest (f a x)
      (fun a b hb hp => hstep a b (List.mem_cons_of_mem _ hb) hp)
      (hstep a x (List.mem_cons_self _ _) ha)

/-! ### Branch equations for `updateLabel` -/

theorem notSkip_cond (d : Bool) (assoc : List Nat) (hns : assoc ≠ [] ∨ d = false) :
    ¬(assoc.length = 0 ∧ d = true) := by
  rcases hns with h | h
  · exact fun hc => h (List.length_eq_zero.mp hc.1)
  · exact fun hc => by rw [h] at hc; exact Bool.false_ne_true hc.2

theorem updateLabel_skip_eq (d : Bool) (ng : Option NgControl) (assoc : List Nat)
    (st : RLState) (hc : assoc.length = 0 ∧ d = true) :
    RequiredLabel.updateLabel d ng assoc st = { st with warns := st.warns + 1 } := by
  simp [RequiredLabel.updateLabel, hc]

theorem updateLabel_true_some_eq (d : Bool) (ng : Option NgControl) (assoc : List Nat)
    (st : RLState) (s : Nat) (hns : assoc ≠ [] ∨ d = false)
    (hr : RequiredLabel.hasRequiredValidator ng = true) (hsp : st.asteriskSpan = some s) :
    RequiredLabel.updateLabel d ng assoc st =
      { st with aria := some "true", labels := attachLoop assoc s st.labels } := by
  simp only [RequiredLabel.updateLabel, hr, hsp, if_neg (notSkip_cond d assoc hns), if_true]

theorem updateLabel_true_none_eq (d : Bool) (ng : Option NgControl) (assoc : List Nat)
    (st : RLState) (hns : assoc ≠ [] ∨ d = false)
    (hr : RequiredLabel.hasRequiredValidator ng = true) (hsp : st.asteriskSpan = none) :
    RequiredLabel.updateLabel d ng assoc st =
      { st with
          aria := some "true",
          nodes := st.nodes ++ [(st.nextId, indicatorEl)],
          asteriskSpan := some st.nextId,
          nextId := st.nextId + 1,
          labels := attachLoop assoc st.nextId st.labels } := by
  simp only [RequiredLabel.updateLabel, hr, hsp, if_neg (notSkip_cond d assoc hns), if_true]

theorem updateLabel_false_none_eq (d : Bool) (ng : Option NgControl) (assoc : List Nat)
    (st : RLState) (hns : assoc ≠ [] ∨ d = false)
    (hr : RequiredLabel.hasRequiredValidator ng = false) (hsp : st.asteriskSpan = none) :
    RequiredLabel.updateLabel d ng assoc st = { st with aria := none } := by
  simp only [RequiredLabel.updateLabel, hr, hsp, if_neg (notSkip_cond d assoc hns),
    Bool.false_eq_true, if_false]

theorem updateLabel_false_some_eq (d : Bool) (ng : Option NgControl) (assoc : List Nat)
    (st : RLState) (s : Nat) (hns : assoc ≠ [] ∨ d = false)
    (hr : RequiredLabel.hasRequiredValidator ng = false) (hsp : st.asteriskSpan = some s) :
    RequiredLabel.updateLabel d ng assoc st =
      { st with
          aria := none,
          labels := detachLoop assoc s st.labels,
          asteriskSpan := none } := by
  simp only [RequiredLabel.updateLabel, hr, hsp, if_neg (notSkip_cond d assoc hns),
    Bool.false_eq_true, if_false]

/-! ### Field preservation -/

theorem updateLabel_subscribed (d : Bool) (ng : Option NgControl) (assoc : List Nat)
    (st : RLState) :
    (RequiredLabel.updateLabel d ng assoc st).subscribed = st.subscribed := by
  by_cases hc : assoc.length = 0 ∧ d = true
  · rw [updateLabel_skip_eq d ng assoc st hc]
  · have hns : assoc ≠ [] ∨ d = false := by
      by_contra h
      push_neg at h
      exact hc ⟨by simp [List.length_eq_zero, h.1], by simpa using h.2⟩
    cases hr : RequiredLabel.hasRequiredValidator ng
    · cases hsp : st.asteriskSpan with
      | none => rw [updateLabel_false_none_eq d ng assoc st hns hr hsp]
      | some s => rw [updateLabel_false_some_eq d ng assoc st s hns hr hsp]
    · cases hsp : st.asteriskSpan with
      | none => rw [updateLabel_true_none_eq d ng assoc st hns hr hsp]
      | some s => rw [updateLabel_true_some_eq d ng assoc st s hns hr hsp]

theorem updateLabel_aria (d : Bool) (ng : Option NgControl) (assoc : List Nat)
    (st : RLState) (hns : assoc ≠ [] ∨ d = false) :
    (RequiredLabel.updateLabel d ng assoc st).aria =
      if RequiredLabel.hasRequiredValidator ng then some "true" else none := by
  cases hr : RequiredLabel.hasRequiredValidator ng
  · cases hsp : st.asteriskSpan with
    | none => rw [updateLabel_false_none_eq d ng assoc st hns hr hsp]; simp
    | some s => rw [updateLabel_false_some_eq d ng assoc st s hns hr hsp]; simp
  · cases hsp : st.asteriskSpan with
    | none => rw [updateLabel_true_none_eq d ng assoc st hns hr hsp]; simp
    | some s => rw [updateLabel_true_some_eq d ng assoc st s hns hr hsp]; simp

/-! ### Emission runs -/

theorem runEmissions_nil (d : Bool) (st : RLState) : runEmissions d [] st = st := rfl

theorem runEmissions_cons (d : Bool) (p : Option NgControl × List Nat)
    (rest : List (Option NgControl × List Nat)) (st : RLState) :
    runEmissions d (p :: rest) st =
      runEmissions d rest (RequiredLabel.onStatusEmission d p.1 p.2 st) := rfl

theorem runEmissions_append (d : Bool) (xs ys : List (Option NgControl × List Nat))
    (st : RLState) :
    runEmissions d (xs ++ ys) st = runEmissions d ys (runEmissions d xs st) := by
  simp [runEmissions, List.foldl_append]

theorem runEmissions_unsubscribed (d : Bool)
    (inputs : List (Option NgControl × List Nat)) (st : RLState)
    (h : st.subscribed = false) : runEmissions d inputs st = st := by
  induction inputs with
  | nil => rfl
  | cons p rest ih =>
    rw [runEmissions_cons]
    have : RequiredLabel.onStatusEmission d p.1 p.2 st = st := by
      simp [RequiredLabel.onStatusEmission, h]
    rw [this, ih]

theorem onStatusEmission_subscribed (d : Bool) (ng : Option NgControl) (assoc : List Nat)
    (st : RLState) :
    (RequiredLabel.onStatusEmission d ng assoc st).subscribed = st.subscribed := by
  by_cases h : st.subscribed = true
  · simp [RequiredLabel.onStatusEmission, h, updateLabel_subscribed]
  · simp [RequiredLabel.onStatusEmission, h]

theorem runEmissions_subscribed (d : Bool) (inputs : List (Option NgControl × List Nat))
    (st : RLState) : (runEmissions d inputs st).subscribed = st.subscribed := by
  induction inputs generalizing st with
  | nil => rfl
  | cons p rest ih =>
    rw [runEmissions_cons, ih, onStatusEmission_subscribed]

/-! ### The single-parent discipline of DOM nodes -/

/-- A DOM node lives under at most one parent: every indicator id occurs at
most once inside one label and in at most one label. -/
def SingleParent (ls : Nat → List Nat) : Prop :=
  ∀ s : Nat, (∀ l, (ls l).count s ≤ 1) ∧ ∀ l1 l2, s ∈ ls l1 → s ∈ ls l2 → l1 = l2

theorem count_filter_ne_self (xs : List Nat) (s : Nat) :
    (xs.filter (fun t => t ≠ s)).count s = 0 := by
  rw [List.count_eq_zero]
  intro h
  have := (List.mem_filter.mp h).2
  simp at this

theorem not_mem_filter_ne_self (xs : List Nat) (s : Nat) :
    s ∉ xs.filter (fun t => t ≠ s) := by
  intro h
  have := (List.mem_filter.mp h).2
  simp at this

theorem appendChildAt_mem (ls : Nat → List Nat) (l s t m : Nat)
    (h : t ∈ appendChildAt ls l s m) : t ∈ ls m ∨ t = s := by
  unfold appendChildAt at h
  by_cases hm : m = l
  · rw [if_pos hm] at h
    rcases List.mem_append.mp h with h1 | h1
    · exact Or.inl (by rw [hm]; exact List.mem_of_mem_filter h1)
    · exact Or.inr (List.mem_singleton.mp h1)
  · rw [if_neg hm] at h
    exact Or.inl (List.mem_of_mem_filter h)

theorem appendChildAt_mem_self (ls : Nat → List Nat) (l s m : Nat)
    (h : s ∈ appendChildAt ls l s m) : m = l := by
  unfold appendChildAt at h
  by_cases hm : m = l
  · exact hm
  · rw [if_neg hm] at h
    exact absurd h (not_mem_filter_ne_self _ s)

theorem count_filter_le_nat (p : Nat → Bool) (xs : List Nat) (t : Nat) :
    (xs.filter p).count t ≤ xs.count t :=
  List.Sublist.count_le (List.filter_sublist xs) t

theorem singleParent_appendChildAt (ls : Nat → List Nat) (l s : Nat)
    (h : SingleParent ls) : SingleParent (appendChildAt ls l s) := by
  intro t
  constructor
  · intro m
    unfold appendChildAt
    by_cases hm : m = l
    · rw [if_pos hm, List.count_append]
      by_cases hts : t = s
      · subst hts
        rw [count_filter_ne_self]
        simp
      · have h1 : (List.filter (fun u => decide (u ≠ s)) (ls l)).count t ≤ (ls l).count t :=
          count_filter_le_nat _ _ _
        have h2 : List.count t [s] = 0 := by
          rw [List.count_eq_zero]
          simp [hts]
        have h3 := (h t).1 l
        omega
    · rw [if_neg hm]
      exact le_trans (count_filter_le_nat _ _ _) ((h t).1 m)
  · intro m1 m2 h1 h2
    by_cases hts : t = s
    · subst hts
      rw [appendChildAt_mem_self ls l t m1 h1, appendChildAt_mem_self ls l t m2 h2]
    · have g1 : t ∈ ls m1 := (appendChildAt_mem ls l s t m1 h1).resolve_right hts
      have g2 : t ∈ ls m2 := (appendChildAt_mem ls l s t m2 h2).resolve_right hts
      exact (h t).2 m1 m2 g1 g2

theorem removeChildAt_mem (ls : Nat → List Nat) (l s t m : Nat)
    (h : t ∈ removeChildAt ls l s m) : t ∈ ls m := by
  unfold removeChildAt at h
  by_cases hm : m = l
  · rw [if_pos hm] at h
    rw [hm]
    exact List.mem_of_mem_filter h
  · rwa [if_neg hm] at h

theorem singleParent_removeChildAt (ls : Nat → List Nat) (l s : Nat)
    (h : SingleParent ls) : SingleParent (removeChildAt ls l s) := by
  intro t
  constructor
  · intro m
    unfold removeChildAt
    by_cases hm : m = l
    · rw [if_pos hm]
      exact le_trans (count_filter_le_nat _ _ _) ((h t).1 l)
    · rw [if_neg hm]
      exact (h t).1 m
  · intro m1 m2 h1 h2
    exact (h t).2 m1 m2 (removeChildAt_mem ls l s t m1 h1) (removeChildAt_mem ls l s t m2 h2)

theorem singleParent_attachStep (s : Nat) (ls : Nat → List Nat) (l : Nat)
    (h : SingleParent ls) : SingleParent (attachStep s ls l) := by
  unfold attachStep
  by_cases hc : s ∈ ls l
  · rwa [if_pos hc]
  · rw [if_neg hc]
    exact singleParent_appendChildAt ls l s h

theorem singleParent_attachLoop (assoc : List Nat) (s : Nat) (ls : Nat → List Nat)
    (h : SingleParent ls) : SingleParent (attachLoop assoc s ls) :=
  foldl_preserve SingleParent (attachStep s)
    (fun a b ha => singleParent_attachStep s a b ha) assoc ls h

theorem singleParent_detachStep (s : Nat) (ls : Nat → List Nat) (l : Nat)
    (h : SingleParent ls) : SingleParent (detachStep s ls l) := by
  unfold detachStep
  by_cases hc : s ∈ ls l
  · rw [if_pos hc]
    exact singleParent_removeChildAt ls l s h
  · rwa [if_neg hc]

theorem singleParent_detachLoop (assoc : List Nat) (s : Nat) (ls : Nat → List Nat)
    (h : SingleParent ls) : SingleParent (detachLoop assoc s ls) :=
  foldl_preserve SingleParent (detachStep s)
    (fun a b ha => singleParent_detachStep s a b ha) assoc ls h

/-! ### Membership through the forEach loops -/

theorem attachStep_mem (s : Nat) (ls : Nat → List Nat) (l t m : Nat)
    (h : t ∈ attachStep s ls l m) : t ∈ ls m ∨ t = s := by
  unfold attachStep at h
  by_cases hc : s ∈ ls l
  · rw [if_pos hc] at h
    exact Or.inl h
  · rw [if_neg hc] at h
    exact appendChildAt_mem ls l s t m h

theorem attachLoop_mem (assoc : List Nat) (s : Nat) :
    ∀ (ls : Nat → List Nat) (m t : Nat), t ∈ attachLoop assoc s ls m → t ∈ ls m ∨ t = s := by
  induction assoc with
  | nil => exact fun ls m t h => Or.inl h
  | cons a rest ih =>
    intro ls m t h
    rcases ih (attachStep s ls a) m t h with h1 | h1
    · exact attachStep_mem s ls a t m h1
    · exact Or.inr h1

theorem attachStep_mem_self (s : Nat) (ls : Nat → List Nat) (l m : Nat)
    (h : s ∈ attachStep s ls l m) : s ∈ ls m ∨ m = l := by
  unfold attachStep at h
  by_cases hc : s ∈ ls l
  · rw [if_pos hc] at h
    exact Or.inl h
  · rw [if_neg hc] at h
    exact Or.inr (appendChildAt_mem_self ls l s m h)

theorem attachLoop_mem_self (assoc : List Nat) (s : Nat) :
    ∀ (ls : Nat → List Nat) (m : Nat), s ∈ attachLoop assoc s ls m → s ∈ ls m ∨ m ∈ assoc := by
  induction assoc with
  | nil => exact fun ls m h => Or.inl h
  | cons a rest ih =>
    intro ls m h
    rcases ih (attachStep s ls a) m h with h1 | h1
    · rcases attachStep_mem_self s ls a m h1 with h2 | h2
      · exact Or.inl h2
      · exact Or.inr (by rw [h2]; exact List.mem_cons_self a rest)
    · exact Or.inr (List.mem_cons_of_mem a h1)

theorem attachStep_mem_self_target (s : Nat) (ls : Nat → List Nat) (l : Nat) :
    s ∈ attachStep s ls l l := by
  unfold attachStep
  by_cases h : s ∈ ls l
  · rwa [if_pos h]
  · rw [if_neg h]
    unfold appendChildAt
    simp

theorem lastOf_cons_cons (a b : Nat) (rest : List Nat) :
    lastOf (a :: b :: rest) = lastOf (b :: rest) := rfl

theorem attachLoop_mem_last (assoc : List Nat) (s : Nat) :
    ∀ ls : Nat → List Nat, assoc ≠ [] → s ∈ attachLoop assoc s ls (lastOf assoc) :=
  match assoc with
  | [] => fun _ h => absurd rfl h
  | [l] => fun ls _ => attachStep_mem_self_target s ls l
  | a :: b :: rest => fun ls _ => by
    rw [lastOf_cons_cons]
    exact attachLoop_mem_last (b :: rest) s (attachStep s ls a) (by simp)

theorem detachStep_mem (s : Nat) (ls : Nat → List Nat) (l t m : Nat)
    (h : t ∈ detachStep s ls l m) : t ∈ ls m := by
  unfold detachStep at h
  by_cases hc : s ∈ ls l
  · rw [if_pos hc] at h
    exact removeChildAt_mem ls l s t m h
  · rwa [if_neg hc] at h

theorem detachLoop_mem (assoc : List Nat) (s : Nat) :
    ∀ (ls : Nat → List Nat) (m t : Nat), t ∈ detachLoop assoc s ls m → t ∈ ls m := by
  induction assoc with
  | nil => exact fun ls m t h => h
  | cons a rest ih =>
    intro ls m t h
    exact detachStep_mem s ls a t m (ih (detachStep s ls a) m t h)

theorem detachStep_not_mem_self (s : Nat) (ls : Nat → List Nat) (l : Nat) :
    s ∉ detachStep s ls l l := by
  unfold detachStep
  by_cases hc : s ∈ ls l
  · rw [if_pos hc]
    unfold removeChildAt
    simp only [if_pos rfl]
    exact not_mem_filter_ne_self _ s
  · rwa [if_neg hc]

theorem detachLoop_not_mem (assoc : List Nat) (s : Nat) :
    ∀ (ls : Nat → List Nat) (l : Nat), l ∈ assoc → s ∉ detachLoop assoc s ls l := by
  induction assoc with
  | nil => exact fun ls l h => absurd h (List.not_mem_nil l)
  | cons a rest ih =>
    intro ls l hl hmem
    rcases List.mem_cons.mp hl with h1 | h1
    · subst h1
      by_cases hr : l ∈ rest
      · exact ih (detachStep s ls l) l hr hmem
      · have : s ∈ detachStep s ls l l := detachLoop_mem rest s (detachStep s ls l) l s hmem
        exact detachStep_not_mem_self s ls l this
    · exact ih (detachStep s ls a) l h1 hmem

/-! ### State-level invariants -/

theorem notSkip_of_not_cond (d : Bool) (assoc : List Nat)
    (hc : ¬(assoc.length = 0 ∧ d = true)) : assoc ≠ [] ∨ d = false := by
  by_cases ha : assoc = []
  · right
    cases d with
    | false => rfl
    | true => exact absurd ⟨by simp [ha], rfl⟩ hc
  · exact Or.inl ha

theorem singleParent_updateLabel (d : Bool) (ng : Option NgControl) (assoc : List Nat)
    (st : RLState) (h : SingleParent st.labels) :
    SingleParent (RequiredLabel.updateLabel d ng assoc st).labels := by
  by_cases hc : assoc.length = 0 ∧ d = true
  · rw [updateLabel_skip_eq d ng assoc st hc]
    exact h
  · have hns := notSkip_of_not_cond d assoc hc
    cases hr : RequiredLabel.hasRequiredValidator ng
    · cases hsp : st.asteriskSpan with
      | none =>
        rw [updateLabel_false_none_eq d ng assoc st hns hr hsp]
        exact h
      | some s =>
        rw [updateLabel_false_some_eq d ng assoc st s hns hr hsp]
        exact singleParent_detachLoop assoc s st.labels h
    · cases hsp : st.asteriskSpan with
      | none =>
        rw [updateLabel_true_none_eq d ng assoc st hns hr hsp]
        exact singleParent_attachLoop assoc st.nextId st.labels h
      | some s =>
        rw [updateLabel_true_some_eq d ng assoc st s hns hr hsp]
        exact singleParent_attachLoop assoc s st.labels h

theorem singleParent_onStatusEmission (d : Bool) (ng : Option NgControl) (assoc : List Nat)
    (st : RLState) (h : SingleParent st.labels) :
    SingleParent (RequiredLabel.onStatusEmission d ng assoc st).labels := by
  by_cases hs : st.subscribed = true
  · simpa [RequiredLabel.onStatusEmission, hs] using singleParent_updateLabel d ng assoc st h
  · simpa [RequiredLabel.onStatusEmission, hs] using h

theorem singleParent_runEmissions (d : Bool) (inputs : List (Option NgControl × List Nat))
    (st : RLState) (h : SingleParent st.labels) :
    SingleParent (runEmissions d inputs st).labels := by
  induction inputs generalizing st with
  | nil => exact h
  | cons p rest ih =>
    rw [runEmissions_cons]
    exact ih _ (singleParent_onStatusEmission d p.1 p.2 st h)

theorem singleParent_initial (aria0 : Option String) :
    SingleParent (initialState aria0).labels := by
  intro s
  constructor
  · intro l
    simp [initialState]
  · intro l1 l2 h1 _
    exact absurd h1 (List.not_mem_nil s)

theorem singleParent_subscribedState (aria0 : Option String) :
    SingleParent (subscribedState aria0).labels :=
  singleParent_initial aria0

/-! ### Small list facts -/

theorem eq_singleton_of_mem_count (l : List Nat) (s : Nat) (hall : ∀ t ∈ l, t = s)
    (hcnt : l.count s ≤ 1) (hmem : s ∈ l) : l = [s] := by
  cases l with
  | nil => exact absurd hmem (List.not_mem_nil s)
  | cons a rest =>
    have ha : a = s := hall a (List.mem_cons_self a rest)
    subst ha
    have hcnt2 : rest.count a = 0 := by
      rw [List.count_cons_self] at hcnt
      omega
    have hnr : a ∉ rest := List.count_eq_zero.mp hcnt2
    cases rest with
    | nil => rfl
    | cons b bs =>
      have hb : b = a := hall b (List.mem_cons_of_mem a (List.mem_cons_self b bs))
      subst hb
      exact absurd (List.mem_cons_self b bs) hnr

/-! ### The clean-attachment invariant for a stable label association -/

/-- Along a run in which every pass observes the same associated-label list
`assoc`, the DOM stays clean: nodes obey the single-parent discipline, and
every attached indicator is the currently referenced one, sitting inside an
associated label. -/
def CleanInv (assoc : List Nat) (st : RLState) : Prop :=
  SingleParent st.labels ∧
    ∀ l t, t ∈ st.labels l → st.asteriskSpan = some t ∧ l ∈ assoc

theorem cleanInv_subscribedState (assoc : List Nat) (aria0 : Option String) :
    CleanInv assoc (subscribedState aria0) :=
  ⟨singleParent_subscribedState aria0,
    fun _ t ht => absurd ht (List.not_mem_nil t)⟩

theorem cleanInv_updateLabel (d : Bool) (ng : Option NgControl) (assoc : List Nat)
    (st : RLState) (h : CleanInv assoc st) :
    CleanInv assoc (RequiredLabel.updateLabel d ng assoc st) := by
  refine ⟨singleParent_updateLabel d ng assoc st h.1, ?_⟩
  by_cases hc : assoc.length = 0 ∧ d = true
  · rw [updateLabel_skip_eq d ng assoc st hc]
    exact fun l t ht => h.2 l t ht
  · have hns := notSkip_of_not_cond d assoc hc
    cases hr : RequiredLabel.hasRequiredValidator ng
    · cases hsp : st.asteriskSpan with
      | none =>
        rw [updateLabel_false_none_eq d ng assoc st hns hr hsp]
        intro l t ht
        have := (h.2 l t ht).1
        rw [hsp] at this
        exact Option.noConfusion this
      | some s =>
        rw [updateLabel_false_some_eq d ng assoc st s hns hr hsp]
        intro l t ht
        have hmem : t ∈ st.labels l := detachLoop_mem assoc s st.labels l t ht
        have h2 := h.2 l t hmem
        have hts : t = s := by
          have := h2.1
          rw [hsp] at this
          exact (Option.some.inj this).symm
        rw [hts] at ht
        exact absurd ht (detachLoop_not_mem assoc s st.labels l h2.2)
    · cases hsp : st.asteriskSpan with
      | none =>
        rw [updateLabel_true_none_eq d ng assoc st hns hr hsp]
        intro l t ht
        rcases attachLoop_mem assoc st.nextId st.labels l t ht with h1 | h1
        · have := (h.2 l t h1).1
          rw [hsp] at this
          exact Option.noConfusion this
        · subst h1
          refine ⟨rfl, ?_⟩
          rcases attachLoop_mem_self assoc st.nextId st.labels l ht with h2 | h2
          · have := (h.2 l st.nextId h2).1
            rw [hsp] at this
            exact Option.noConfusion this
          · exact h2
      | some s =>
        rw [updateLabel_true_some_eq d ng assoc st s hns hr hsp]
        intro l t ht
        rcases attachLoop_mem assoc s st.labels l t ht with h1 | h1
        · exact h.2 l t h1
        · rw [h1]
          constructor
          · exact hsp
          · rcases attachLoop_mem_self assoc s st.labels l (h1 ▸ ht) with h2 | h2
            · exact (h.2 l s h2).2
            · exact h2

theorem cleanInv_onStatusEmission (d : Bool) (ng : Option NgControl) (assoc : List Nat)
    (st : RLState) (h : CleanInv assoc st) :
    CleanInv assoc (RequiredLabel.onStatusEmission d ng assoc st) := by
  by_cases hs : st.subscribed = true
  · simpa [RequiredLabel.onStatusEmission, hs] using cleanInv_updateLabel d ng assoc st h
  · simpa [RequiredLabel.onStatusEmission, hs] using h

theorem cleanInv_runEmissions (d : Bool) (assoc : List Nat)
    (ngs : List (Option NgControl)) (st : RLState) (h : CleanInv assoc st) :
    CleanInv assoc (runEmissions d (ngs.map (fun g => (g, assoc))) st) := by
  induction ngs generalizing st with
  | nil => exact h
  | cons g rest ih =>
    rw [List.map_cons, runEmissions_cons]
    exact ih _ (cleanInv_onStatusEmission d g assoc st h)

/-! ### Results of a single non-skipped pass -/

theorem updateLabel_true_attach (d : Bool) (ng : Option NgControl) (assoc : List Nat)
    (st : RLState) (hne : assoc ≠ [])
    (hr : RequiredLabel.hasRequiredValidator ng = true) :
    ∃ s, (RequiredLabel.updateLabel d ng assoc st).asteriskSpan = some s ∧
      s ∈ (RequiredLabel.updateLabel d ng assoc st).labels (lastOf assoc) := by
  have hns : assoc ≠ [] ∨ d = false := Or.inl hne
  cases hsp : st.asteriskSpan with
  | some s =>
    rw [updateLabel_true_some_eq d ng assoc st s hns hr hsp]
    exact ⟨s, hsp, attachLoop_mem_last assoc s st.labels hne⟩
  | none =>
    rw [updateLabel_true_none_eq d ng assoc st hns hr hsp]
    exact ⟨st.nextId, rfl, attachLoop_mem_last assoc st.nextId st.labels hne⟩

theorem cleanInv_span_singleton (assoc : List Nat) (st : RLState)
    (hinv : CleanInv assoc st) (s : Nat) (hspan : st.asteriskSpan = some s)
    (hmem : s ∈ st.labels (lastOf assoc)) :
    st.labels (lastOf assoc) = [s] ∧ ∀ l, l ≠ lastOf assoc → st.labels l = [] := by
  constructor
  · apply eq_singleton_of_mem_count _ s
    · intro t ht
      have h1 := (hinv.2 _ t ht).1
      rw [hspan] at h1
      exact (Option.some.inj h1).symm
    · exact (hinv.1 s).1 _
    · exact hmem
  · intro l hl
    refine List.eq_nil_iff_forall_not_mem.mpr fun t ht => ?_
    have h1 := (hinv.2 l t ht).1
    rw [hspan] at h1
    have hts : t = s := (Option.some.inj h1).symm
    rw [hts] at ht
    exact hl ((hinv.1 s).2 l (lastOf assoc) ht hmem)

theorem updateLabel_false_clean (d : Bool) (ng : Option NgControl) (assoc : List Nat)
    (st : RLState) (hinv : CleanInv assoc st) (hne : assoc ≠ [])
    (hr : RequiredLabel.hasRequiredValidator ng = false) :
    (RequiredLabel.updateLabel d ng assoc st).aria = none ∧
    (RequiredLabel.updateLabel d ng assoc st).asteriskSpan = none ∧
    ∀ l, (RequiredLabel.updateLabel d ng assoc st).labels l = [] := by
  have hns : assoc ≠ [] ∨ d = false := Or.inl hne
  cases hsp : st.asteriskSpan with
  | none =>
    rw [updateLabel_false_none_eq d ng assoc st hns hr hsp]
    refine ⟨rfl, hsp, fun l => List.eq_nil_iff_forall_not_mem.mpr fun t ht => ?_⟩
    have h1 := (hinv.2 l t ht).1
    rw [hsp] at h1
    exact Option.noConfusion h1
  | some s =>
    rw [updateLabel_false_some_eq d ng assoc st s hns hr hsp]
    refine ⟨rfl, rfl, fun l => List.eq_nil_iff_forall_not_mem.mpr fun t ht => ?_⟩
    have hmem : t ∈ st.labels l := detachLoop_mem assoc s st.labels l t ht
    have h2 := hinv.2 l t hmem
    have hts : t = s := by
      have h1 := h2.1
      rw [hsp] at h1
      exact (Option.some.inj h1).symm
    rw [hts] at ht
    exact detachLoop_not_mem assoc s st.labels l h2.2 ht

theorem updateLabel_true_result (d : Bool) (ng : Option NgControl) (assoc : List Nat)
    (st : RLState) (hinv : CleanInv assoc st) (hne : assoc ≠ [])
    (hr : RequiredLabel.hasRequiredValidator ng = true) :
    ∃ s, (RequiredLabel.updateLabel d ng assoc st).asteriskSpan = some s ∧
      (RequiredLabel.updateLabel d ng assoc st).labels (lastOf assoc) = [s] ∧
      ∀ l, l ≠ lastOf assoc → (RequiredLabel.updateLabel d ng assoc st).labels l = [] := by
  obtain ⟨s, hspan, hmem⟩ := updateLabel_true_attach d ng assoc st hne hr
  have hinv2 := cleanInv_updateLabel d ng assoc st hinv
  obtain ⟨h1, h2⟩ := cleanInv_span_singleton assoc _ hinv2 s hspan hmem
  exact ⟨s, hspan, h1, h2⟩

/-! ### Shape of every created indicator node -/

/-- Every node the directive ever created has the indicator markup, the
referenced span is a created node, and so is every node attached to any
label. -/
def NodesShaped (st : RLState) : Prop :=
  (∀ p ∈ st.nodes, p.2 = indicatorEl) ∧
  (∀ s, st.asteriskSpan = some s → (s, indicatorEl) ∈ st.nodes) ∧
  (∀ l t, t ∈ st.labels l → (t, indicatorEl) ∈ st.nodes)

theorem nodesShaped_subscribedState (aria0 : Option String) :
    NodesShaped (subscribedState aria0) := by
  refine ⟨fun p hp => absurd hp (List.not_mem_nil p), fun s hs => ?_, fun l t ht => ?_⟩
  · exact Option.noConfusion hs
  · exact absurd ht (List.not_mem_nil t)

theorem nodesShaped_updateLabel (d : Bool) (ng : Option NgControl) (assoc : List Nat)
    (st : RLState) (h : NodesShaped st) :
    NodesShaped (RequiredLabel.updateLabel d ng assoc st) := by
  by_cases hc : assoc.length = 0 ∧ d = true
  · rw [updateLabel_skip_eq d ng assoc st hc]
    exact h
  · have hns := notSkip_of_not_cond d assoc hc
    cases hr : RequiredLabel.hasRequiredValidator ng
    · cases hsp : st.asteriskSpan with
      | none =>
        rw [updateLabel_false_none_eq d ng assoc st hns hr hsp]
        exact h
      | some s =>
        rw [updateLabel_false_some_eq d ng assoc st s hns hr hsp]
        refine ⟨h.1, fun u hu => Option.noConfusion hu, fun l t ht => ?_⟩
        exact h.2.2 l t (detachLoop_mem assoc s st.labels l t ht)
    · cases hsp : st.asteriskSpan with
      | none =>
        rw [updateLabel_true_none_eq d ng assoc st hns hr hsp]
        refine ⟨fun p hp => ?_, fun u hu => ?_, fun l t ht => ?_⟩
        · rcases List.mem_append.mp hp with h1 | h1
          · exact h.1 p h1
          · rw [List.mem_singleton.mp h1]
        · have hu2 : u = st.nextId := Option.some.inj hu.symm
          rw [hu2]
          exact List.mem_append.mpr (Or.inr (List.mem_singleton.mpr rfl))
        · rcases attachLoop_mem assoc st.nextId st.labels l t ht with h1 | h1
          · exact List.mem_append.mpr (Or.inl (h.2.2 l t h1))
          · rw [h1]
            exact List.mem_append.mpr (Or.inr (List.mem_singleton.mpr rfl))
      | some s =>
        rw [updateLabel_true_some_eq d ng assoc st s hns hr hsp]
        refine ⟨h.1, fun u hu => h.2.1 u (by rw [← hu, hsp]), fun l t ht => ?_⟩
        rcases attachLoop_mem assoc s st.labels l t ht with h1 | h1
        · exact h.2.2 l t h1
        · rw [h1]
          exact h.2.1 s hsp

theorem nodesShaped_onStatusEmission (d : Bool) (ng : Option NgControl) (assoc : List Nat)
    (st : RLState) (h : NodesShaped st) :
    NodesShaped (RequiredLabel.onStatusEmission d ng assoc st) := by
  by_cases hs : st.subscribed = true
  · simpa [RequiredLabel.onStatusEmission, hs] using nodesShaped_updateLabel d ng assoc st h
  · simpa [RequiredLabel.onStatusEmission, hs] using h

theorem nodesShaped_runEmissions (d : Bool) (inputs : List (Option NgControl × List Nat))
    (st : RLState) (h : NodesShaped st) : NodesShaped (runEmissions d inputs st) := by
  induction inputs generalizing st with
  | nil => exact h
  | cons p rest ih =>
    rw [runEmissions_cons]
    exact ih _ (nodesShaped_onStatusEmission d p.1 p.2 st h)

theorem updateLabel_warns (d : Bool) (ng : Option NgControl) (assoc : List Nat)
    (st : RLState) (hns : assoc ≠ [] ∨ d = false) :
    (RequiredLabel.updateLabel d ng assoc st).warns = st.warns := by
  cases hr : RequiredLabel.hasRequiredValidator ng
  · cases hsp : st.asteriskSpan with
    | none => rw [updateLabel_false_none_eq d ng assoc st hns hr hsp]
    | some s => rw [updateLabel_false_some_eq d ng assoc st s hns hr hsp]
  · cases hsp : st.asteriskSpan with
    | none => rw [updateLabel_true_none_eq d ng assoc st hns hr hsp]
    | some s => rw [updateLabel_true_some_eq d ng assoc st s hns hr hsp]

/-! ### Claim C1 -/

/-- C1, counterexample: the claim says every zero-label pass emits the
diagnostic and performs no mutation.  In production mode
(`isDevMode = false`) a zero-label pass with a required control performs a
mutation (`aria-required` goes from absent to `"true"`) and emits no
diagnostic, because the early return is guarded by
`associatedLabels.length === 0 && isDevMode()`. -/
theorem C1_cex :
    (RequiredLabel.updateLabel false ngRequired [] (subscribedState none)).aria = some "true" ∧
    (subscribedState none).aria = none ∧
    (RequiredLabel.updateLabel false ngRequired [] (subscribedState none)).warns =
      (subscribedState none).warns := by
  refine ⟨by decide, rfl, by decide⟩

/-- C1 (amended): only in development mode does a zero-label reflection
pass emit the diagnostic and perform no mutation (the state is unchanged
except for the warning count); in production mode a zero-label pass emits
no diagnostic and still updates the host's `aria-required` attribute
according to the computed required-ness. -/
theorem C1_zero_label_pass (ng : Option NgControl) (st : RLState) :
    RequiredLabel.updateLabel true ng [] st = { st with warns := st.warns + 1 } ∧
    (RequiredLabel.updateLabel false ng [] st).warns = st.warns ∧
    (RequiredLabel.updateLabel false ng [] st).aria =
      (if RequiredLabel.hasRequiredValidator ng then some "true" else none) :=
  ⟨updateLabel_skip_eq true ng [] st ⟨rfl, rfl⟩,
    updateLabel_warns false ng [] st (Or.inr rfl),
    updateLabel_aria false ng [] st (Or.inr rfl)⟩

/-! ### Claim C2 -/

/-- C2, counterexample: after a required pass with a label, a second pass
in development mode that finds zero labels computes `isRequired = false`
but returns before touching `aria-required`; the attribute stays `"true"`
although the most recently computed required-ness is false. -/
theorem C2_cex :
    (runEmissions true [(ngRequired, [0]), (ngClean, [])] (subscribedState none)).aria =
      some "true" ∧
    RequiredLabel.hasRequiredValidator ngClean = false := by
  refine ⟨by decide, by decide⟩

/-- C2 (amended): after any emission whose reflection pass is not skipped
(it finds at least one label, or runs in production mode), the host's
`aria-required` attribute is `"true"` iff that pass computed required-ness
true, and is absent otherwise.  Skipped passes leave the attribute
unchanged, so the mirror property is guaranteed only at points whose most
recent pass was not skipped. -/
theorem C2_aria_mirrors (d : Bool) (inputs : List (Option NgControl × List Nat))
    (ng : Option NgControl) (assoc : List Nat) (st : RLState)
    (hsub : st.subscribed = true) (hns : assoc ≠ [] ∨ d = false) :
    (runEmissions d (inputs ++ [(ng, assoc)]) st).aria =
      (if RequiredLabel.hasRequiredValidator ng then some "true" else none) := by
  rw [runEmissions_append, runEmissions_cons, runEmissions_nil]
  have hsub2 : (runEmissions d inputs st).subscribed = true := by
    rw [runEmissions_subscribed]
    exact hsub
  have honc : RequiredLabel.onStatusEmission d ng assoc (runEmissions d inputs st) =
      RequiredLabel.updateLabel d ng assoc (runEmissions d inputs st) := by
    simp [RequiredLabel.onStatusEmission, hsub2]
  rw [honc]
  exact updateLabel_aria d ng assoc _ hns

/-- C2, witness for the amended theorem at a concrete input. -/
theorem C2_aria_mirrors_w :
    (subscribedState none).subscribed = true ∧ (([0] : List Nat) ≠ [] ∨ false = false) ∧
    (runEmissions false ([] ++ [(ngRequired, [0])]) (subscribedState none)).aria =
      (if RequiredLabel.hasRequiredValidator ngRequired then some "true" else none) :=
  ⟨rfl, Or.inr rfl,
    C2_aria_mirrors false [] ngRequired [0] (subscribedState none) rfl (Or.inr rfl)⟩

/-! ### Claim C3 -/

/-- C3, counterexample: a validator whose result maps `required` to the
falsy value `false` yields a result that does contain a `required` key,
yet `hasRequiredValidator` reports `false` — the code checks JS truthiness
of the mapped value, not key containment. -/
theorem C3_cex :
    RequiredLabel.hasRequiredValidator ngFalsyRequired = false ∧
    containsRequiredKey (requiredFalsyValidator ()) = true ∧
    ngFalsyRequired = some ⟨some ⟨some requiredFalsyValidator⟩⟩ :=
  ⟨by decide, by decide, rfl⟩

/-- C3 (amended): on each pass `isRequired` is obtained by evaluating the
bound validator against the synthetic empty input, and is true iff the
result is a non-null error object mapping `required` to a JS-truthy value;
it is false whenever the control or its validator is absent. -/
theorem C3_truthy_required (ng : Option NgControl) :
    RequiredLabel.hasRequiredValidator ng = specRequiredTruthy ng := by
  cases ng with
  | none => rfl
  | some g =>
    cases hc : g.control with
    | none => simp [RequiredLabel.hasRequiredValidator, specRequiredTruthy, hc]
    | some c =>
      cases hv : c.validator with
      | none => simp [RequiredLabel.hasRequiredValidator, specRequiredTruthy, hc, hv]
      | some f =>
        cases hf : f () with
        | none => simp [RequiredLabel.hasRequiredValidator, specRequiredTruthy, hc, hv, hf]
        | some errs =>
          cases hlk : errs.lookup "required" with
          | none =>
            simp [RequiredLabel.hasRequiredValidator, specRequiredTruthy, hc, hv, hf, hlk,
              JSVal.truthy]
          | some v =>
            simp [RequiredLabel.hasRequiredValidator, specRequiredTruthy, hc, hv, hf, hlk]

/-! ### Claim C4 -/

/-- C4, counterexample: a single required pass over two associated labels
leaves the unique indicator attached to label 1 only — the shared node is
moved by the second `appendChild`, so it is attached neither to all
associated labels nor to none of them. -/
theorem C4_cex :
    (runEmissions true [(ngRequired, [0, 1])] (subscribedState none)).asteriskSpan = some 0 ∧
    0 ∈ (runEmissions true [(ngRequired, [0, 1])] (subscribedState none)).labels 1 ∧
    0 ∉ (runEmissions true [(ngRequired, [0, 1])] (subscribedState none)).labels 0 := by
  refine ⟨by decide, by decide, by decide⟩

/-- C4 (amended): the component references at most one indicator node at
any moment (a single optional field), and after a pass that computes
required-ness true and finds a nonempty label list, that node is attached
to exactly the last associated label in iteration order and to no other
label — appending the single shared node to each label in turn detaches it
from the previous one. -/
theorem C4_last_label (d : Bool) (inputs : List (Option NgControl × List Nat))
    (ng : Option NgControl) (assoc : List Nat) (aria0 : Option String)
    (hr : RequiredLabel.hasRequiredValidator ng = true) (hne : assoc ≠ []) :
    ∃ s,
      (runEmissions d (inputs ++ [(ng, assoc)]) (subscribedState aria0)).asteriskSpan = some s ∧
      s ∈ (runEmissions d (inputs ++ [(ng, assoc)]) (subscribedState aria0)).labels
        (lastOf assoc) ∧
      ∀ l, l ≠ lastOf assoc →
        s ∉ (runEmissions d (inputs ++ [(ng, assoc)]) (subscribedState aria0)).labels l := by
  rw [runEmissions_append, runEmissions_cons, runEmissions_nil]
  have hsub : (runEmissions d inputs (subscribedState aria0)).subscribed = true := by
    rw [runEmissions_subscribed]
    rfl
  have honc : RequiredLabel.onStatusEmission d ng assoc (runEmissions d inputs (subscribedState aria0)) =
      RequiredLabel.updateLabel d ng assoc (runEmissions d inputs (subscribedState aria0)) := by
    simp [RequiredLabel.onStatusEmission, hsub]
  rw [honc]
  obtain ⟨s, hspan, hmem⟩ :=
    updateLabel_true_attach d ng assoc (runEmissions d inputs (subscribedState aria0)) hne hr
  have hsp2 : SingleParent
      (RequiredLabel.updateLabel d ng assoc (runEmissions d inputs (subscribedState aria0))).labels :=
    singleParent_updateLabel d ng assoc _
      (singleParent_runEmissions d inputs _ (singleParent_subscribedState aria0))
  exact ⟨s, hspan, hmem, fun l hl hmem2 => hl ((hsp2 s).2 l (lastOf assoc) hmem2 hmem)⟩

/-- C4, witness for the amended theorem at a concrete input. -/
theorem C4_last_label_w :
    RequiredLabel.hasRequiredValidator ngRequired = true ∧ (([0, 1] : List Nat) ≠ []) ∧
    ∃ s,
      (runEmissions true ([] ++ [(ngRequired, [0, 1])]) (subscribedState none)).asteriskSpan =
        some s ∧
      s ∈ (runEmissions true ([] ++ [(ngRequired, [0, 1])]) (subscribedState none)).labels
        (lastOf [0, 1]) ∧
      ∀ l, l ≠ lastOf [0, 1] →
        s ∉ (runEmissions true ([] ++ [(ngRequired, [0, 1])]) (subscribedState none)).labels l :=
  ⟨by decide, by decide,
    C4_last_label true [] ngRequired [0, 1] none (by decide) (by decide)⟩

/-! ### Claim C5 -/

/-- C5, counterexample: the label set changes between passes.  Pass one
attaches the indicator to label 0; pass two computes required-ness false
but only detaches from the labels found on that pass (label 1), so the
indicator remains attached to the previously associated label 0 after a
sequence ending in false. -/
theorem C5_cex :
    RequiredLabel.hasRequiredValidator ngClean = false ∧
    0 ∈ (runEmissions false [(ngRequired, [0]), (ngClean, [1])] (subscribedState none)).labels 0 := by
  refine ⟨by decide, by decide⟩

/-- C5 (amended): for every sequence of emissions in which each pass
observes the same nonempty associated-label list and the final pass
computes required-ness false, after the final pass `aria-required` is
absent, the indicator reference is dropped, and no indicator node remains
attached to any label. -/
theorem C5_detach_on_false (d : Bool) (ngs : List (Option NgControl))
    (ng : Option NgControl) (assoc : List Nat) (aria0 : Option String)
    (hne : assoc ≠ []) (hr : RequiredLabel.hasRequiredValidator ng = false) :
    (runEmissions d (ngs.map (fun g => (g, assoc)) ++ [(ng, assoc)])
      (subscribedState aria0)).aria = none ∧
    (runEmissions d (ngs.map (fun g => (g, assoc)) ++ [(ng, assoc)])
      (subscribedState aria0)).asteriskSpan = none ∧
    ∀ l, (runEmissions d (ngs.map (fun g => (g, assoc)) ++ [(ng, assoc)])
      (subscribedState aria0)).labels l = [] := by
  rw [runEmissions_append, runEmissions_cons, runEmissions_nil]
  have hinv : CleanInv assoc
      (runEmissions d (ngs.map (fun g => (g, assoc))) (subscribedState aria0)) :=
    cleanInv_runEmissions d assoc ngs _ (cleanInv_subscribedState assoc aria0)
  have hsub : (runEmissions d (ngs.map (fun g => (g, assoc)))
      (subscribedState aria0)).subscribed = true := by
    rw [runEmissions_subscribed]
    rfl
  have honc : RequiredLabel.onStatusEmission d ng assoc
      (runEmissions d (ngs.map (fun g => (g, assoc))) (subscribedState aria0)) =
      RequiredLabel.updateLabel d ng assoc
        (runEmissions d (ngs.map (fun g => (g, assoc))) (subscribedState aria0)) := by
    simp [RequiredLabel.onStatusEmission, hsub]
  rw [honc]
  exact updateLabel_false_clean d ng assoc _ hinv hne hr

/-- C5, witness for the amended theorem at a concrete input. -/
theorem C5_detach_on_false_w :
    (([0] : List Nat) ≠ []) ∧ RequiredLabel.hasRequiredValidator ngClean = false ∧
    (runEmissions false ([ngRequired].map (fun g => (g, [0])) ++ [(ngClean, [0])])
      (subscribedState none)).aria = none ∧
    (runEmissions false ([ngRequired].map (fun g => (g, [0])) ++ [(ngClean, [0])])
      (subscribedState none)).asteriskSpan = none ∧
    ∀ l, (runEmissions false ([ngRequired].map (fun g => (g, [0])) ++ [(ngClean, [0])])
      (subscribedState none)).labels l = [] :=
  ⟨by decide, by decide,
    C5_detach_on_false false [ngRequired] ngClean [0] none (by decide) (by decide)⟩

/-! ### Claim C6 -/

/-- C6, counterexample: one required pass with two associated labels ends
with label 0 holding no indicator at all (the shared node moved on to
label 1), so it is not the case that exactly one indicator is attached to
each associated label. -/
theorem C6_cex :
    RequiredLabel.hasRequiredValidator ngRequired = true ∧
    (runEmissions false [(ngRequired, [0, 1])] (subscribedState none)).labels 0 = [] ∧
    (runEmissions false [(ngRequired, [0, 1])] (subscribedState none)).labels 1 = [0] := by
  refine ⟨by decide, by decide, by decide⟩

/-- C6 (amended): for every sequence of emissions in which each pass
observes the same nonempty associated-label list and the final pass
computes required-ness true, afterwards exactly one indicator node is
attached, with no duplicates, and it sits inside the last associated label
in iteration order; every other label holds none (duplicates never arise:
insertion is guarded by a containment check, so the property is
independent of how many consecutive true emissions occurred). -/
theorem C6_attach_on_true (d : Bool) (ngs : List (Option NgControl))
    (ng : Option NgControl) (assoc : List Nat) (aria0 : Option String)
    (hne : assoc ≠ []) (hr : RequiredLabel.hasRequiredValidator ng = true) :
    ∃ s,
      (runEmissions d (ngs.map (fun g => (g, assoc)) ++ [(ng, assoc)])
        (subscribedState aria0)).asteriskSpan = some s ∧
      (runEmissions d (ngs.map (fun g => (g, assoc)) ++ [(ng, assoc)])
        (subscribedState aria0)).labels (lastOf assoc) = [s] ∧
      ∀ l, l ≠ lastOf assoc →
        (runEmissions d (ngs.map (fun g => (g, assoc)) ++ [(ng, assoc)])
          (subscribedState aria0)).labels l = [] := by
  rw [runEmissions_append, runEmissions_cons, runEmissions_nil]
  have hinv : CleanInv assoc
      (runEmissions d (ngs.map (fun g => (g, assoc))) (subscribedState aria0)) :=
    cleanInv_runEmissions d assoc ngs _ (cleanInv_subscribedState assoc aria0)
  have hsub : (runEmissions d (ngs.map (fun g => (g, assoc)))
      (subscribedState aria0)).subscribed = true := by
    rw [runEmissions_subscribed]
    rfl
  have honc : RequiredLabel.onStatusEmission d ng assoc
      (runEmissions d (ngs.map (fun g => (g, assoc))) (subscribedState aria0)) =
      RequiredLabel.updateLabel d ng assoc
        (runEmissions d (ngs.map (fun g => (g, assoc))) (subscribedState aria0)) := by
    simp [RequiredLabel.onStatusEmission, hsub]
  rw [honc]
  exact updateLabel_true_result d ng assoc _ hinv hne hr

/-- C6, witness for the amended theorem at a concrete input. -/
theorem C6_attach_on_true_w :
    (([0] : List Nat) ≠ []) ∧ RequiredLabel.hasRequiredValidator ngRequired = true ∧
    ∃ s,
      (runEmissions false (([ngClean] : List (Option NgControl)).map (fun g => (g, [0])) ++
        [(ngRequired, [0])]) (subscribedState none)).asteriskSpan = some s ∧
      (runEmissions false (([ngClean] : List (Option NgControl)).map (fun g => (g, [0])) ++
        [(ngRequired, [0])]) (subscribedState none)).labels (lastOf [0]) = [s] ∧
      ∀ l, l ≠ lastOf [0] →
        (runEmissions false (([ngClean] : List (Option NgControl)).map (fun g => (g, [0])) ++
          [(ngRequired, [0])]) (subscribedState none)).labels l = [] :=
  ⟨by decide, by decide,
    C6_attach_on_true false [ngClean] ngRequired [0] none (by decide) (by decide)⟩

/-! ### Claim C7 -/

/-- C7, confirmed: when the optional chain `ngControl?.control` yields
nothing at initialization, `ngOnInit` returns before subscribing; the
component state is untouched, no subscription exists, and any sequence of
simulated emissions leaves the state exactly as it was. -/
theorem C7_inert_without_control (d : Bool) (ng : Option NgControl) (assoc0 : List Nat)
    (aria0 : Option String) (inputs : List (Option NgControl × List Nat))
    (h : ng.bind NgControl.control = none) :
    RequiredLabel.ngOnInit d ng assoc0 (initialState aria0) = initialState aria0 ∧
    (RequiredLabel.ngOnInit d ng assoc0 (initialState aria0)).subscribed = false ∧
    runEmissions d inputs (RequiredLabel.ngOnInit d ng assoc0 (initialState aria0)) =
      initialState aria0 := by
  have hinit : RequiredLabel.ngOnInit d ng assoc0 (initialState aria0) = initialState aria0 := by
    cases ng with
    | none => rfl
    | some g =>
      cases hc : g.control with
      | none => simp [RequiredLabel.ngOnInit, hc]
      | some c =>
        rw [show (some g).bind NgControl.control = g.control from rfl, hc] at h
        exact Option.noConfusion h
  refine ⟨hinit, by rw [hinit]; rfl, ?_⟩
  rw [hinit]
  exact runEmissions_unsubscribed d inputs _ rfl

/-- C7, witness at a concrete input. -/
theorem C7_inert_without_control_w :
    ((none : Option NgControl).bind NgControl.control = none) ∧
    runEmissions false [(ngRequired, [0])]
      (RequiredLabel.ngOnInit false none [] (initialState none)) = initialState none :=
  ⟨rfl, (C7_inert_without_control false none [] none [(ngRequired, [0])] rfl).2.2⟩

/-! ### Claim C8 -/

/-- C8, confirmed: `ngOnDestroy` cancels the subscription, so every later
emission leaves the state untouched; teardown is idempotent; and calling
it on a never-initialized component is a safe no-op. -/
theorem C8_teardown (d : Bool) (inputs : List (Option NgControl × List Nat))
    (st : RLState) (aria0 : Option String) :
    runEmissions d inputs (RequiredLabel.ngOnDestroy st) = RequiredLabel.ngOnDestroy st ∧
    RequiredLabel.ngOnDestroy (RequiredLabel.ngOnDestroy st) = RequiredLabel.ngOnDestroy st ∧
    RequiredLabel.ngOnDestroy (initialState aria0) = initialState aria0 :=
  ⟨runEmissions_unsubscribed d inputs _ rfl, rfl, rfl⟩

/-! ### Claim C9 -/

/-- C9, confirmed: every indicator node the directive ever creates is a
`span` with attribute `aria-hidden="true"`, class `required-indicator` and
a single text child `" *"`, and every node attached to any label is one of
those created nodes. -/
theorem C9_indicator_shape (d : Bool) (inputs : List (Option NgControl × List Nat))
    (aria0 : Option String) :
    indicatorEl = ⟨"span", [("aria-hidden", "true")], ["required-indicator"], [" *"]⟩ ∧
    (∀ p ∈ (runEmissions d inputs (subscribedState aria0)).nodes, p.2 = indicatorEl) ∧
    ∀ l t, t ∈ (runEmissions d inputs (subscribedState aria0)).labels l →
      (t, indicatorEl) ∈ (runEmissions d inputs (subscribedState aria0)).nodes := by
  have h := nodesShaped_runEmissions d inputs (subscribedState aria0)
    (nodesShaped_subscribedState aria0)
  exact ⟨rfl, h.1, h.2.2⟩

/-- C9, witness at a concrete input. -/
theorem C9_indicator_shape_w :
    ((0, indicatorEl) ∈ (runEmissions false [(ngRequired, [0])] (subscribedState none)).nodes) ∧
    (0, indicatorEl).2 = indicatorEl :=
  ⟨by decide,
    (C9_indicator_shape false [(ngRequired, [0])] none).2.1 (0, indicatorEl) (by decide)⟩

/-! ### Claim C10 -/

/-- C10, counterexample: with no validator bound, a zero-label pass in
development mode returns early, so it does not take the not-required
branch: a pre-existing `aria-required="true"` is left in place instead of
being removed. -/
theorem C10_cex :
    RequiredLabel.hasRequiredValidator ngNoValidator = false ∧
    (RequiredLabel.updateLabel true ngNoValidator [] (subscribedState (some "true"))).aria =
      some "true" := by
  refine ⟨by decide, by decide⟩

/-- C10 (amended): for a bound control whose validator is null or absent,
`hasRequiredValidator` returns false and the validator is never invoked,
and every reflection pass that is not skipped (it finds a label, or runs
in production mode) takes the not-required branch: it removes
`aria-required`, drops the indicator reference, and detaches any existing
indicator from every associated label. -/
theorem C10_no_validator (g : NgControl) (c : FtControl) (hg : g.control = some c)
    (hv : c.validator = none) (d : Bool) (assoc : List Nat) (st : RLState)
    (hns : assoc ≠ [] ∨ d = false) :
    RequiredLabel.hasRequiredValidator (some g) = false ∧
    RequiredLabel.validatorCalls (some g) = 0 ∧
    (RequiredLabel.updateLabel d (some g) assoc st).aria = none ∧
    (RequiredLabel.updateLabel d (some g) assoc st).asteriskSpan = none ∧
    ∀ s l, st.asteriskSpan = some s → l ∈ assoc →
      s ∉ (RequiredLabel.updateLabel d (some g) assoc st).labels l := by
  have hr : RequiredLabel.hasRequiredValidator (some g) = false := by
    simp [RequiredLabel.hasRequiredValidator, hg, hv]
  have hcalls : RequiredLabel.validatorCalls (some g) = 0 := by
    simp [RequiredLabel.validatorCalls, hg, hv]
  refine ⟨hr, hcalls, ?_, ?_, ?_⟩
  · rw [updateLabel_aria d (some g) assoc st hns]
    simp [hr]
  · cases hsp : st.asteriskSpan with
    | none =>
      rw [updateLabel_false_none_eq d (some g) assoc st hns hr hsp]
      exact hsp
    | some s =>
      rw [updateLabel_false_some_eq d (some g) assoc st s hns hr hsp]
  · intro s l hsp hl
    rw [updateLabel_false_some_eq d (some g) assoc st s hns hr hsp]
    exact detachLoop_not_mem assoc s st.labels l hl

/-- C10, witness for the amended theorem at a concrete input: the state
reached by one required emission holds indicator 0 inside label 0; a
subsequent non-skipped pass with a validator-less control detaches it. -/
theorem C10_no_validator_w :
    ((⟨some ⟨none⟩⟩ : NgControl).control = some ⟨none⟩) ∧
    ((⟨none⟩ : FtControl).validator = none) ∧
    (([0] : List Nat) ≠ [] ∨ false = false) ∧
    ((runEmissions false [(ngRequired, [0])] (subscribedState none)).asteriskSpan = some 0) ∧
    ((0 : Nat) ∈ ([0] : List Nat)) ∧
    0 ∉ (RequiredLabel.updateLabel false (some ⟨some ⟨none⟩⟩) [0]
      (runEmissions false [(ngRequired, [0])] (subscribedState none))).labels 0 :=
  ⟨rfl, rfl, Or.inr rfl, by decide, by decide,
    (C10_no_validator ⟨some ⟨none⟩⟩ ⟨none⟩ rfl rfl false [0]
      (runEmissions false [(ngRequired, [0])] (subscribedState none))
      (Or.inr rfl)).2.2.2.2 0 0 (by decide) (by decide)⟩

end FormThings
